import Mathlib

/-!
Verification of the canonical JSON formatter of the Munajjam repository
(`munajjam/formatting.py`), over a shallow embedding in Lean 4.

The data model (`munajjam.models`) is not part of the visible source
fragment; its record shapes are modelled from the spec (section 3,
DATA MODEL).  Python floats are idealised as rationals; the builtin
`round` (round-half-to-even on the exact value, to a signed number of
decimal places) is embedded as `roundTo`.  Python dicts are embedded as
insertion-ordered association lists over a `Value` type covering the
JSON-representable Python values produced by the formatter.
-/

namespace Munajjam

/-- Modelled from the spec: `munajjam.models.Ayah` is not under the visible
source; spec section 3 gives its attributes `surah_id` (integer),
`ayah_number` (integer), `text` (string). -/
structure Ayah where
  surah_id : Int
  ayah_number : Int
  text : String
  deriving DecidableEq, Repr

/-- Modelled from the spec: `munajjam.models.AlignmentResult` is not under
the visible source; spec section 3 gives `ayah`, `start_time`, `end_time`,
`transcribed_text`, `similarity_score`, `is_high_confidence` (boolean
computed upstream by the ConfidenceClassifier and stored on the record) and
`overlap_detected` (boolean).  `duration` is derived, not a stored field. -/
structure AlignmentResult where
  ayah : Ayah
  start_time : ℚ
  end_time : ℚ
  transcribed_text : String
  similarity_score : ℚ
  is_high_confidence : Bool
  overlap_detected : Bool
  deriving DecidableEq, Repr

/-- Modelled from the spec: `duration` is "derived = end_time - start_time,
not independently settable". -/
def AlignmentResult.duration (r : AlignmentResult) : ℚ :=
  r.end_time - r.start_time

/-- The JSON-representable Python values the formatter produces. -/
inductive Value where
  | vInt : Int → Value
  | vStr : String → Value
  | vNum : ℚ → Value
  | vBool : Bool → Value
  | vList : List Value → Value
  | vDict : List (String × Value) → Value
  deriving Repr

/-- Python's builtin `round` on an exact (rational) value: round half to
even to the nearest integer. -/
def pyRound (q : ℚ) : Int :=
  let f : Int := Int.floor q
  let r : ℚ := q - (f : ℚ)
  if r < 1 / 2 then f
  else if 1 / 2 < r then f + 1
  else if f % 2 = 0 then f else f + 1

/-- Python's `round(q, p)` for a signed decimal precision `p` (negative
`p` rounds to tens, hundreds, ...), on the exact value. -/
def roundTo (p : Int) (q : ℚ) : ℚ :=
  (pyRound (q * 10 ^ p) : ℚ) / 10 ^ p

/-- The default value of the `precision` parameter of `format_result` and
`format_results` in `formatting.py`. -/
def defaultPrecision : Int := 3

/-- Embedding of `munajjam.formatting.format_result`: builds the canonical
ten-key dict, rounding the four float fields to `precision` decimals. -/
def format_result (result : AlignmentResult) (precision : Int) :
    List (String × Value) :=
  [("ayah_number", Value.vInt result.ayah.ayah_number),
   ("surah_id", Value.vInt result.ayah.surah_id),
   ("start_time", Value.vNum (roundTo precision result.start_time)),
   ("end_time", Value.vNum (roundTo precision result.end_time)),
   ("duration", Value.vNum (roundTo precision result.duration)),
   ("transcribed_text", Value.vStr result.transcribed_text),
   ("reference_text", Value.vStr result.ayah.text),
   ("similarity_score", Value.vNum (roundTo precision result.similarity_score)),
   ("is_high_confidence", Value.vBool result.is_high_confidence),
   ("overlap_detected", Value.vBool result.overlap_detected)]

/-- Embedding of `munajjam.formatting.format_results`: wraps the formatted
results in an `"ayahs"` list, then inserts `"surah_id"` and `"reciter"`
only when the optional arguments are given (Python `is not None`). -/
def format_results (results : List AlignmentResult)
    (surah_id : Option Int) (reciter : Option String) (precision : Int) :
    List (String × Value) :=
  let output : List (String × Value) :=
    [("ayahs", Value.vList
        (results.map (fun r => Value.vDict (format_result r precision))))]
  let output : List (String × Value) :=
    match surah_id with
    | some s => output ++ [("surah_id", Value.vInt s)]
    | none => output
  match reciter with
  | some n => output ++ [("reciter", Value.vStr n)]
  | none => output

/-- `format_result` at the Python default `precision=3`. -/
def format_result_default (result : AlignmentResult) : List (String × Value) :=
  format_result result defaultPrecision

/-- The ten canonical keys, in the insertion order of `format_result`. -/
def canonicalKeys : List String :=
  ["ayah_number", "surah_id", "start_time", "end_time", "duration",
   "transcribed_text", "reference_text", "similarity_score",
   "is_high_confidence", "overlap_detected"]

/-- Modelled from the spec: `TranscribedSegment` (section 3) is not under the
visible source; a timed span of recognized speech. -/
structure TranscribedSegment where
  start_time : ℚ
  end_time : ℚ
  text : String
  deriving DecidableEq, Repr

/-- Modelled from the spec: the AlignmentEngine (not under the visible
source) "Fails with InputError when ayahs or segments sequence is empty".
This guard models exactly that emptiness check: `true` means the engine
raises `InputError` on these inputs. -/
def engineRaisesInputError (ayahs : List Ayah)
    (segments : List TranscribedSegment) : Bool :=
  ayahs.isEmpty || segments.isEmpty

/-- State-passing embedding of a call `format_result(result, precision)`:
the Python body only reads attributes of `result` and `result.ayah` and
allocates a fresh dict; it contains no assignment to either object, so the
callee-visible store (the `AlignmentResult` and its `Ayah`) after the call
is the store before it. -/
def format_result_call (result : AlignmentResult) (precision : Int) :
    List (String × Value) × AlignmentResult :=
  (format_result result precision, result)

/-- State-passing embedding of a call `format_results(results, ...)`: the
body builds a fresh list comprehension and a fresh dict and never assigns
to `results` or its elements, so the input list after the call is the list
before it. -/
def format_results_call (results : List AlignmentResult)
    (surah_id : Option Int) (reciter : Option String) (precision : Int) :
    List (String × Value) × List AlignmentResult :=
  (format_results results surah_id reciter precision, results)

/-- A `Value` is JSON-representable: built only from ints, floats, strings,
booleans, lists and string-keyed dicts (recursively). -/
inductive IsJson : Value → Prop where
  | int (n : Int) : IsJson (Value.vInt n)
  | str (s : String) : IsJson (Value.vStr s)
  | num (q : ℚ) : IsJson (Value.vNum q)
  | bool (b : Bool) : IsJson (Value.vBool b)
  | list (xs : List Value) : (∀ v ∈ xs, IsJson v) → IsJson (Value.vList xs)
  | dict (kvs : List (String × Value)) :
      (∀ kv ∈ kvs, IsJson kv.2) → IsJson (Value.vDict kvs)

/-- A concrete alignment result used to instantiate hypotheses of the
universally quantified theorems below (the values of the first test
fixture of `test_formatting.py`). -/
def sampleResult : AlignmentResult :=
  { ayah := { surah_id := 1, ayah_number := 1, text := "بسم الله الرحمن الرحيم" }
    start_time := 56789 / 10000
    end_time := 91234 / 10000
    transcribed_text := "بسم الله الرحمن الرحيم"
    similarity_score := 9567 / 10000
    is_high_confidence := true
    overlap_detected := false }

/-- A concrete alignment result on which rounding makes the formatted
`duration` differ from the difference of the formatted endpoints:
`start_time = 0.0004`, `end_time = 0.0008`. -/
def cexResult : AlignmentResult :=
  { ayah := { surah_id := 1, ayah_number := 1, text := "بسم الله" }
    start_time := 1 / 2500
    end_time := 1 / 1250
    transcribed_text := "بسم الله"
    similarity_score := 1
    is_high_confidence := true
    overlap_detected := false }

/-! ## Helper lemmas about rounding -/

theorem pyRound_nonneg {q : ℚ} (h : 0 ≤ q) : 0 ≤ pyRound q := by
  have hf : (0 : ℤ) ≤ Int.floor q := Int.floor_nonneg.mpr h
  unfold pyRound
  dsimp only
  split_ifs <;> omega

theorem roundTo_nonneg {p : Int} {q : ℚ} (h : 0 ≤ q) : 0 ≤ roundTo p q := by
  have h10 : (0 : ℚ) < 10 ^ p := zpow_pos (by norm_num) p
  have h1 : (0 : ℤ) ≤ pyRound (q * 10 ^ p) :=
    pyRound_nonneg (mul_nonneg h h10.le)
  exact div_nonneg (by exact_mod_cast h1) h10.le

/-! ## Claim theorems -/

/-- C1: for every AlignmentResult and precision, `format_result` returns a
dict with exactly the ten canonical keys in the canonical order, where
`ayah_number` and `surah_id` come from `result.ayah`, `transcribed_text`
equals `result.transcribed_text`, `reference_text` equals
`result.ayah.text`, and `is_high_confidence` and `overlap_detected` are
passed through unchanged from the result. -/
theorem format_result_canonical_schema (r : AlignmentResult) (p : Int) :
    (format_result r p).map Prod.fst = canonicalKeys ∧
    (format_result r p).lookup "ayah_number"
      = some (Value.vInt r.ayah.ayah_number) ∧
    (format_result r p).lookup "surah_id" = some (Value.vInt r.ayah.surah_id) ∧
    (format_result r p).lookup "transcribed_text"
      = some (Value.vStr r.transcribed_text) ∧
    (format_result r p).lookup "reference_text"
      = some (Value.vStr r.ayah.text) ∧
    (format_result r p).lookup "is_high_confidence"
      = some (Value.vBool r.is_high_confidence) ∧
    (format_result r p).lookup "overlap_detected"
      = some (Value.vBool r.overlap_detected) :=
  ⟨rfl, rfl, rfl, rfl, rfl, rfl, rfl⟩

/-- C10: `format_result` is total: for every result and every integer
precision, zero and negative values included, it returns the canonical
ten-key dict (no validation, no failure). -/
theorem format_result_total (r : AlignmentResult) (p : Int) :
    (format_result r p).length = 10 ∧
    (format_result r p).map Prod.fst = canonicalKeys :=
  ⟨rfl, rfl⟩

/-- C8: `format_results` on the empty list (metadata omitted, any
precision) returns exactly the dict with the single key `"ayahs"` bound to
the empty list, while the engine's own input contract raises `InputError`
on empty input. -/
theorem format_results_empty (p : Int) :
    format_results [] none none p = [("ayahs", Value.vList [])] ∧
    engineRaisesInputError [] [] = true :=
  ⟨rfl, rfl⟩

/-- C4: in the output of `format_results`, `"surah_id"` is bound exactly
when the `surah_id` argument is not `none` (to the passed value), likewise
`"reciter"`, and `"ayahs"` is always present. -/
theorem format_results_optional_keys (rs : List AlignmentResult)
    (sid : Option Int) (rc : Option String) (p : Int) :
    (format_results rs sid rc p).lookup "surah_id" = sid.map Value.vInt ∧
    (format_results rs sid rc p).lookup "reciter" = rc.map Value.vStr ∧
    ((format_results rs sid rc p).lookup "ayahs").isSome = true := by
  cases sid <;> cases rc <;> exact ⟨rfl, rfl, rfl⟩

/-- C5: the `"ayahs"` value of `format_results` is the input list mapped
elementwise through `format_result` (so it has the input's length and its
i-th entry is the formatted i-th input), and the output `ayah_number`s
match the input `ayah_number`s in order. -/
theorem format_results_ayahs_in_order (rs : List AlignmentResult)
    (sid : Option Int) (rc : Option String) (p : Int) :
    (format_results rs sid rc p).lookup "ayahs"
      = some (Value.vList (rs.map fun r => Value.vDict (format_result r p))) ∧
    (rs.map fun r => Value.vDict (format_result r p)).length = rs.length ∧
    rs.map (fun r => (format_result r p).lookup "ayah_number")
      = rs.map (fun r => some (Value.vInt r.ayah.ayah_number)) := by
  refine ⟨?_, by simp, rfl⟩
  cases sid <;> cases rc <;> rfl

/-- C9: the formatting functions mutate nothing: after a call, the input
`AlignmentResult`, its `Ayah`, and the input results list are unchanged. -/
theorem format_no_mutation (r : AlignmentResult) (rs : List AlignmentResult)
    (sid : Option Int) (rc : Option String) (p : Int) :
    (format_result_call r p).2 = r ∧
    (format_result_call r p).2.ayah = r.ayah ∧
    (format_results_call rs sid rc p).2 = rs :=
  ⟨rfl, rfl, rfl⟩

/-- C2: `format_result` rounds exactly the four float fields
(`start_time`, `end_time`, `duration`, `similarity_score`) to `p` decimal
places, emits the six other fields unrounded, `format_results` forwards its
precision to `format_result` for every element, and the default precision
is 3. -/
theorem format_result_rounds_float_fields (r : AlignmentResult) (p : Int) :
    (format_result r p).lookup "start_time"
      = some (Value.vNum (roundTo p r.start_time)) ∧
    (format_result r p).lookup "end_time"
      = some (Value.vNum (roundTo p r.end_time)) ∧
    (format_result r p).lookup "duration"
      = some (Value.vNum (roundTo p r.duration)) ∧
    (format_result r p).lookup "similarity_score"
      = some (Value.vNum (roundTo p r.similarity_score)) ∧
    (format_result r p).lookup "ayah_number"
      = some (Value.vInt r.ayah.ayah_number) ∧
    (format_result r p).lookup "surah_id" = some (Value.vInt r.ayah.surah_id) ∧
    (format_result r p).lookup "transcribed_text"
      = some (Value.vStr r.transcribed_text) ∧
    (format_result r p).lookup "reference_text"
      = some (Value.vStr r.ayah.text) ∧
    (format_result r p).lookup "is_high_confidence"
      = some (Value.vBool r.is_high_confidence) ∧
    (format_result r p).lookup "overlap_detected"
      = some (Value.vBool r.overlap_detected) ∧
    (∀ (rs : List AlignmentResult) (sid : Option Int) (rc : Option String),
      (format_results rs sid rc p).lookup "ayahs"
        = some (Value.vList (rs.map fun x => Value.vDict (format_result x p)))) ∧
    format_result_default r = format_result r 3 := by
  refine ⟨rfl, rfl, rfl, rfl, rfl, rfl, rfl, rfl, rfl, rfl, ?_, rfl⟩
  intro rs sid rc
  cases sid <;> cases rc <;> rfl

/-- C6: `format_result` and `format_results` are deterministic functions of
their argument values: equal field values and equal arguments give equal
outputs. -/
theorem format_deterministic (r₁ r₂ : AlignmentResult) (p₁ p₂ : Int)
    (rs₁ rs₂ : List AlignmentResult) (sid₁ sid₂ : Option Int)
    (rc₁ rc₂ : Option String)
    (ha : r₁.ayah.surah_id = r₂.ayah.surah_id)
    (hb : r₁.ayah.ayah_number = r₂.ayah.ayah_number)
    (hc : r₁.ayah.text = r₂.ayah.text)
    (hd : r₁.start_time = r₂.start_time)
    (he : r₁.end_time = r₂.end_time)
    (hf : r₁.transcribed_text = r₂.transcribed_text)
    (hg : r₁.similarity_score = r₂.similarity_score)
    (hh : r₁.is_high_confidence = r₂.is_high_confidence)
    (hi : r₁.overlap_detected = r₂.overlap_detected)
    (hp : p₁ = p₂) (hrs : rs₁ = rs₂) (hsid : sid₁ = sid₂) (hrc : rc₁ = rc₂) :
    format_result r₁ p₁ = format_result r₂ p₂ ∧
    format_results rs₁ sid₁ rc₁ p₁ = format_results rs₂ sid₂ rc₂ p₂ := by
  obtain ⟨⟨a1, a2, a3⟩, b1, b2, b3, b4, b5, b6⟩ := r₁
  obtain ⟨⟨c1, c2, c3⟩, d1, d2, d3, d4, d5, d6⟩ := r₂
  dsimp only at ha hb hc hd he hf hg hh hi
  subst ha hb hc hd he hf hg hh hi hp hrs hsid hrc
  exact ⟨rfl, rfl⟩

/-- Witness for C6: the determinism theorem applied at a concrete result,
precision, list and metadata. -/
theorem format_deterministic_witness :
    format_result sampleResult 3 = format_result sampleResult 3 ∧
    format_results [sampleResult] (some 1) (some "Test Reciter") 3
      = format_results [sampleResult] (some 1) (some "Test Reciter") 3 :=
  format_deterministic sampleResult sampleResult 3 3 [sampleResult]
    [sampleResult] (some 1) (some 1) (some "Test Reciter")
    (some "Test Reciter") rfl rfl rfl rfl rfl rfl rfl rfl rfl rfl rfl rfl rfl

/-- C7: every value in the dict built by `format_results` (for inputs of
the declared field types) is of a JSON-representable kind: an int, float,
string, boolean, list, or string-keyed dict, recursively. -/
theorem format_results_json_representable (rs : List AlignmentResult)
    (sid : Option Int) (rc : Option String) (p : Int) :
    IsJson (Value.vDict (format_results rs sid rc p)) := by
  have hres : ∀ r : AlignmentResult,
      ∀ kv ∈ format_result r p, IsJson kv.2 := by
    intro r kv hkv
    simp only [format_result, List.mem_cons, List.not_mem_nil, or_false] at hkv
    rcases hkv with h | h | h | h | h | h | h | h | h | h <;> subst h <;>
      first
        | exact IsJson.int _
        | exact IsJson.num _
        | exact IsJson.str _
        | exact IsJson.bool _
  have hayahs : IsJson (Value.vList
      (rs.map fun r => Value.vDict (format_result r p))) := by
    refine IsJson.list _ ?_
    intro v hv
    simp only [List.mem_map] at hv
    obtain ⟨r, _, rfl⟩ := hv
    exact IsJson.dict _ (hres r)
  refine IsJson.dict _ ?_
  intro kv hkv
  cases sid <;> cases rc <;>
    simp only [format_results, List.mem_append, List.mem_cons,
      List.not_mem_nil, or_false] at hkv
  case none.none =>
    subst hkv; exact hayahs
  case none.some n =>
    rcases hkv with h | h <;> subst h
    · exact hayahs
    · exact IsJson.str _
  case some.none s =>
    rcases hkv with h | h <;> subst h
    · exact hayahs
    · exact IsJson.int _
  case some.some s n =>
    rcases hkv with (h | h) | h <;> subst h
    · exact hayahs
    · exact IsJson.int _
    · exact IsJson.str _

/-- Counterexample to C3 as stated: at `start_time = 0.0004`,
`end_time = 0.0008` and the default precision 3, the formatted dict has
`start_time = 0.0`, `end_time = 0.001` and `duration = 0.0`, so the
`"duration"` value differs from the `"end_time"` value minus the
`"start_time"` value. -/
theorem format_result_duration_cex :
    (format_result cexResult 3).lookup "start_time"
      = some (Value.vNum 0) ∧
    (format_result cexResult 3).lookup "end_time"
      = some (Value.vNum (1 / 1000)) ∧
    (format_result cexResult 3).lookup "duration" = some (Value.vNum 0) ∧
    (format_result cexResult 3).lookup "duration"
      ≠ some (Value.vNum ((1 / 1000 : ℚ) - 0)) := by
  have h1 : roundTo 3 cexResult.start_time = 0 := by
    norm_num [cexResult, roundTo, pyRound]
  have h2 : roundTo 3 cexResult.end_time = 1 / 1000 := by
    norm_num [cexResult, roundTo, pyRound]
  have h3 : roundTo 3 cexResult.duration = 0 := by
    norm_num [cexResult, AlignmentResult.duration, roundTo, pyRound]
  refine ⟨?_, ?_, ?_, ?_⟩
  · rw [show (format_result cexResult 3).lookup "start_time"
        = some (Value.vNum (roundTo 3 cexResult.start_time)) from rfl, h1]
  · rw [show (format_result cexResult 3).lookup "end_time"
        = some (Value.vNum (roundTo 3 cexResult.end_time)) from rfl, h2]
  · rw [show (format_result cexResult 3).lookup "duration"
        = some (Value.vNum (roundTo 3 cexResult.duration)) from rfl, h3]
  · rw [show (format_result cexResult 3).lookup "duration"
        = some (Value.vNum (roundTo 3 cexResult.duration)) from rfl, h3]
    intro hcontra
    simp only [Option.some.injEq, Value.vNum.injEq] at hcontra
    norm_num at hcontra

/-- C3 (amended): on every result, `duration` is derived as
`end_time - start_time` and is non-negative when `end_time >= start_time`;
the formatted `"duration"` value is `round(end_time - start_time, p)` and
is non-negative, but it need not equal the formatted `"end_time"` minus the
formatted `"start_time"`, since each field is rounded separately. -/
theorem format_result_duration_consistent (r : AlignmentResult) (p : Int)
    (h : r.start_time ≤ r.end_time) :
    r.duration = r.end_time - r.start_time ∧
    0 ≤ r.duration ∧
    (format_result r p).lookup "duration"
      = some (Value.vNum (roundTo p (r.end_time - r.start_time))) ∧
    0 ≤ roundTo p (r.end_time - r.start_time) :=
  ⟨rfl, sub_nonneg.mpr h, rfl, roundTo_nonneg (sub_nonneg.mpr h)⟩

/-- Witness for C3 (amended): the theorem applied at a concrete result with
`start_time <= end_time` and precision 3. -/
theorem format_result_duration_consistent_witness :
    sampleResult.duration
      = sampleResult.end_time - sampleResult.start_time ∧
    0 ≤ sampleResult.duration ∧
    (format_result sampleResult 3).lookup "duration"
      = some (Value.vNum
          (roundTo 3 (sampleResult.end_time - sampleResult.start_time))) ∧
    0 ≤ roundTo 3 (sampleResult.end_time - sampleResult.start_time) :=
  format_result_duration_consistent sampleResult 3 (by norm_num [sampleResult])

end Munajjam
